import Mathlib

/-
Verification of the concurrent task orchestrator of the new-sora repository
(src/core/thread_pool.py and src/core/sora_automation.py) against its
natural-language specification.

The Python code is shallowly embedded:
  * pure data (TaskRow, WorkerResult, events) becomes Lean structures;
  * the outcome of every interaction with the external browser / web site
    (navigation success, login checks, workflow outcome) is a parameter of
    the model (TaskEnv / DriverEnv), since those calls leave the repository;
  * the sequential bookkeeping of ThreadPoolManager.process_tasks
    (submission, result collection, cleanup, signal emissions) is a Lean
    function producing the final manager state, the worker results and the
    linearised event trace;
  * the genuinely concurrent behaviour of the ThreadPoolExecutor (a FIFO
    task queue served by max_workers threads) is a small-step machine
    (ExecModel) used to exhibit reachable schedules.
-/

namespace NewSora

/-- Qt signals emitted by ThreadPoolManager (thread_pool.py lines 34-38):
task_started(row, profile), task_completed(row, success, message, profile),
log_message(text), all_completed(), login_required(profile). -/
inductive Event where
  | log_message (text : String)
  | task_started (row : Nat) (profile : String)
  | task_completed (row : Nat) (success : Bool) (message : String) (profile : String)
  | login_required (profile : String)
  | all_completed
deriving Repr, DecidableEq

/-- TaskRow dataclass from core/excel_handler.py (lines 23-36), with the
defaults drawn from config/settings.py. -/
structure TaskRow where
  row_number : Nat
  prompt : String
  image_path : String := ""
  type : String := "video"
  aspect_ratio : String := "3:2"
  duration : String := "10s"
  resolution : String := "720p"
  variations : Nat := 1
  output_path : String := ""
  status : String := ""
  result : String := ""
deriving Repr, DecidableEq

/-- WorkerResult dataclass from core/thread_pool.py (lines 21-27). -/
structure WorkerResult where
  task : TaskRow
  success : Bool
  message : String
  profile_name : String
deriving Repr, DecidableEq

namespace SoraAutomation

/-- Names of the methods defined on class SoraAutomation in
core/sora_automation.py.  Python resolves self.m by looking the name up in
this set; a missing name raises AttributeError.  Note that upload_images is
defined (line 131) but upload_image is not. -/
def methodNames : List String :=
  ["__init__", "navigate_to_sora", "is_logged_in", "wait_for_login",
   "check_and_switch_to_old_sora", "upload_images", "enter_prompt",
   "set_generation_type", "set_aspect_ratio", "set_duration",
   "set_resolution", "click_generate", "wait_for_generation",
   "download_content", "get_generated_content_url", "download_from_url",
   "process_task"]

/-- Message of the AttributeError Python raises when an undefined attribute
is looked up on a SoraAutomation instance. -/
def noAttrMsg (attr : String) : String :=
  let q := "'"
  q ++ "SoraAutomation" ++ q ++ " object has no attribute " ++ q ++ attr ++ q

/-- Outcomes of the individual browser-driver interactions performed by
SoraAutomation.process_task; they depend on the external page, so the model
takes them as inputs. -/
structure DriverEnv where
  upload_ok : Bool
  enter_prompt_ok : Bool
  click_generate_ok : Bool
  generation_ok : Bool
  download_ok : Bool
  download_path : String
deriving Repr, DecidableEq

/-- Page interactions that process_task attempts, in order. -/
inductive DriverAction where
  | upload_image (path : String)
  | enter_prompt (text : String)
  | set_generation_type (t : String)
  | set_aspect_ratio (r : String)
  | set_duration (d : String)
  | set_resolution (r : String)
  | click_generate
  | wait_for_generation
  | download_content (out : String)
deriving Repr, DecidableEq

/-- SoraAutomation.process_task (core/sora_automation.py lines 559-617).
Returns the (success, message) pair together with the list of driver
interactions that were attempted.  The body runs under a try block whose
except handler (lines 615-617) converts any exception e into
(False, str(e)).  When task.image_path is non-empty the body evaluates
self.upload_image (line 577); the attribute lookup is modelled against
methodNames and raises AttributeError when the name is absent. -/
def process_task (env : DriverEnv) (task : TaskRow) :
    (Bool × String) × List DriverAction :=
  -- if task.image_path: if not self.upload_image(task.image_path): ...
  if task.image_path ≠ "" then
    if methodNames.contains "upload_image" then
      -- unreachable for the actual class: upload_image is not defined
      afterUpload env task [DriverAction.upload_image task.image_path]
    else
      -- AttributeError propagates to the except handler: return False, str(e)
      ((false, noAttrMsg "upload_image"), [])
  else
    afterUpload env task []
where
  /-- Remainder of the try block: prompt entry, option selection,
  generation, download (lines 580-613). -/
  afterUpload (env : DriverEnv) (task : TaskRow) (acts : List DriverAction) :
      (Bool × String) × List DriverAction :=
    let acts := acts ++ [DriverAction.enter_prompt task.prompt]
    if !env.enter_prompt_ok then ((false, "Không thể nhập prompt"), acts)
    else
      let acts := acts ++ [DriverAction.set_generation_type task.type,
                           DriverAction.set_aspect_ratio task.aspect_ratio]
      let acts := if task.type = "video"
                  then acts ++ [DriverAction.set_duration task.duration]
                  else acts
      let acts := acts ++ [DriverAction.set_resolution task.resolution,
                           DriverAction.click_generate]
      if !env.click_generate_ok then ((false, "Không thể click Generate"), acts)
      else
        let acts := acts ++ [DriverAction.wait_for_generation]
        if !env.generation_ok then ((false, "Timeout chờ generation"), acts)
        else
          let acts := acts ++ [DriverAction.download_content task.output_path]
          if env.download_ok then
            ((true, "Đã lưu: " ++ env.download_path), acts)
          else
            ((false, "Lỗi download"), acts)

end SoraAutomation

namespace ThreadPoolManager

/-- End of automation.process_task as observed by _process_task: either the
returned (success, message) pair or an exception message (escaping to the
handler at thread_pool.py line 104). -/
inductive Outcome where
  | ok (success : Bool) (message : String)
  | raised (err : String)
deriving Repr, DecidableEq

/-- Behaviour of the external world for one execution of
ThreadPoolManager._process_task: whether automation.navigate_to_sora
succeeds, what automation.is_logged_in reports on the initial check, whether
automation.wait_for_login(300) eventually reports success, and how
automation.process_task ends for this task. -/
structure TaskEnv where
  navigate_ok : Bool
  is_logged_in : Bool
  wait_for_login_ok : Bool
  outcome : Outcome
deriving Repr, DecidableEq

/-- Mutable state of a ThreadPoolManager instance, as set up by its
__init__ (thread_pool.py lines 40-48).  Browsers are identified by the
submission index of the task that created them; openedBrowsers and
closedBrowsers record every BrowserCore ever initialised and every one
whose close() was called, so that session-leak properties can be stated. -/
structure PoolState where
  is_running : Bool
  active_browsers : List (String × Nat)
  logged_in_profiles : List String
  openedBrowsers : List Nat
  closedBrowsers : List Nat
deriving Repr, DecidableEq

/-- State of a manager right after __init__ (is_running = True, empty
registry and empty logged-in set). -/
def initialPool : PoolState :=
  { is_running := true, active_browsers := [], logged_in_profiles := [],
    openedBrowsers := [], closedBrowsers := [] }

/-- ThreadPoolManager._get_profile_name (lines 50-52). -/
def _get_profile_name (index : Nat) : String :=
  let n := index + 1
  s!"profile_{n}"

/-- Python dict assignment self.active_browsers[profile_name] = browser:
any previous binding of the key is replaced (its value is dropped). -/
def dictInsert (key : String) (val : Nat) (d : List (String × Nat)) :
    List (String × Nat) :=
  (key, val) :: d.filter (fun p => p.1 ≠ key)

/-- Python dict lookup returning None when the key is absent. -/
def dictGet (key : String) (d : List (String × Nat)) : Option Nat :=
  (d.find? (fun p => p.1 = key)).map Prod.snd

/-- Python del d[key]. -/
def dictErase (key : String) (d : List (String × Nat)) : List (String × Nat) :=
  d.filter (fun p => p.1 ≠ key)

/-- Python set.add on the _logged_in_profiles set. -/
def setAdd (x : String) (s : List String) : List String :=
  if x ∈ s then s else x :: s

/-- ThreadPoolManager._ensure_logged_in (lines 54-73): navigate, check
is_logged_in, otherwise emit the log and login_required signals and wait up
to 300 seconds.  Returns the boolean result, the updated
_logged_in_profiles set and the emitted events. -/
def _ensure_logged_in (env : TaskEnv) (profile_name : String)
    (logged_in : List String) : Bool × List String × List Event :=
  if !env.navigate_ok then (false, logged_in, [])
  else if env.is_logged_in then (true, setAdd profile_name logged_in, [])
  else
    let evs := [Event.log_message s!"[{profile_name}] Vui lòng đăng nhập...",
                Event.login_required profile_name]
    if env.wait_for_login_ok then (true, setAdd profile_name logged_in, evs)
    else (false, logged_in, evs)

/-- ThreadPoolManager._process_task (lines 75-116) for the task submitted
with index bid on profile slot profile_index: emits the start log and
task_started, creates and registers a fresh BrowserCore (modelled from the
spec: BrowserCore lives in core/browser.py which is outside src/; Session
creation is taken to succeed and yield a new handle), ensures login, runs
automation.process_task, and in the finally block closes and unregisters
whichever browser the registry currently holds for this profile. -/
def _process_task (env : TaskEnv) (task : TaskRow) (profile_index : Nat)
    (bid : Nat) (st : PoolState) : WorkerResult × PoolState × List Event :=
  let profile_name := _get_profile_name profile_index
  let rn := task.row_number
  let evs0 := [Event.log_message s!"[{profile_name}] Đang xử lý dòng {rn}...",
               Event.task_started rn profile_name]
  -- browser = BrowserCore(...); browser.init_browser()
  -- with self.lock: self.active_browsers[profile_name] = browser
  let st1 := { st with openedBrowsers := st.openedBrowsers ++ [bid],
                       active_browsers := dictInsert profile_name bid st.active_browsers }
  let r := _ensure_logged_in env profile_name st1.logged_in_profiles
  let st2 := { st1 with logged_in_profiles := r.2.1 }
  let result :=
    if !r.1 then WorkerResult.mk task false "Không thể đăng nhập" profile_name
    else
      match env.outcome with
      | Outcome.ok s m => WorkerResult.mk task s m profile_name
      | Outcome.raised e => WorkerResult.mk task false e profile_name
  -- finally: close and drop the browser registered for this profile
  let st3 :=
    match dictGet profile_name st2.active_browsers with
    | some b => { st2 with closedBrowsers := st2.closedBrowsers ++ [b],
                           active_browsers := dictErase profile_name st2.active_browsers }
    | none => st2
  (result, st3, evs0 ++ r.2.2)

/-- Submission loop of process_tasks (lines 137-144): each task at position
idx is submitted with profile index idx % max_workers unless is_running has
been cleared. -/
def submitTasks (running : Bool) (tasks : List TaskRow) (max_workers : Nat)
    (idx : Nat) : List (TaskRow × Nat) :=
  match tasks with
  | [] => []
  | t :: rest =>
      if running then (t, idx % max_workers) :: submitTasks running rest max_workers (idx + 1)
      else []

/-- Sequential execution of the submitted workers.  Each submitted task is
processed once by _process_task; sidx is the submission index (also used as
the fresh browser identifier).  This serialises the executor's threads, so
each task's finally block always finds its own browser registered; the real
interleaving (ExecModel below) can instead overlap two tasks of one slot
and evict a registry entry.  Conclusions about session closure are
therefore never read off this function — it is used only for conclusions
invariant under scheduling: per-task results, event counts and multiset
content, and the terminal position of all_completed. -/
def runWorkers (env : Nat → TaskEnv) (submitted : List (TaskRow × Nat))
    (sidx : Nat) (st : PoolState) : List WorkerResult × PoolState × List Event :=
  match submitted with
  | [] => ([], st, [])
  | (task, pidx) :: rest =>
      let r := _process_task (env sidx) task pidx sidx st
      let rec' := runWorkers env rest (sidx + 1) r.2.1
      (r.1 :: rec'.1, rec'.2.1, r.2.2 ++ rec'.2.2)

/-- Events emitted by the collection loop for one completed future
(lines 151-162): the task_completed signal followed by the status log. -/
def completionEvents (r : WorkerResult) : List Event :=
  let rn := r.task.row_number
  let pn := r.profile_name
  let status := if r.success then "✓" else "✗"
  let msg := r.message
  [Event.task_completed rn r.success msg pn,
   Event.log_message s!"[{pn}] Dòng {rn}: {status} {msg}"]

/-- Collection loop (lines 146-157): as_completed yields each future once;
order lists the submission indices in completion order. -/
def collectResults (results : List WorkerResult) (order : List Nat) :
    List Event :=
  order.flatMap (fun i =>
    match results[i]? with
    | some r => completionEvents r
    | none => [])

/-- ThreadPoolManager._cleanup (lines 172-180): close every browser still
registered and clear the registry. -/
def _cleanup (st : PoolState) : PoolState :=
  { st with closedBrowsers := st.closedBrowsers ++ st.active_browsers.map Prod.snd,
            active_browsers := [] }

/-- ThreadPoolManager.stop (lines 182-190): clear is_running, emit the log,
shut the executor down (a no-op when no run is active) and clean up. -/
def stop (st : PoolState) : PoolState × List Event :=
  let st1 := { st with is_running := false }
  (_cleanup st1, [Event.log_message "Đang dừng tất cả browsers..."])

/-- ThreadPoolManager.process_tasks (lines 118-170).  The run is
parameterised by the per-task environment env, the completion order of the
futures (as_completed yields them in the order they finish), and an
optional injected orchestration failure: orchFail = some (k, m) means an
unexpected exception with message m escapes the collection loop after k
futures were collected, reaching the handler at line 164.  Returns the
final manager state, the worker results, and the linearised event trace:
worker-thread emissions are placed before the collection loop's emissions.
Only conclusions invariant under that linearisation (and under the
serialisation performed by runWorkers) are read off this function; see the
runWorkers comment.  Note the first statement resets is_running to True
(line 126). -/
def process_tasks (st0 : PoolState) (tasks : List TaskRow) (max_workers : Nat)
    (env : Nat → TaskEnv) (order : List Nat) (orchFail : Option (Nat × String)) :
    PoolState × List WorkerResult × List Event :=
  let st := { st0 with is_running := true }
  let n := tasks.length
  let startEv := Event.log_message s!"Bắt đầu xử lý {n} tasks với {max_workers} browsers..."
  let submitted := submitTasks st.is_running tasks max_workers 0
  let w := runWorkers env submitted 0 st
  let collected :=
    match orchFail with
    | none => collectResults w.1 order
    | some (k, m) => collectResults w.1 (order.take k) ++ [Event.log_message s!"Lỗi: {m}"]
  -- finally: self._cleanup(); self.all_completed.emit()
  (_cleanup w.2.1, w.1, startEv :: (w.2.2 ++ (collected ++ [Event.all_completed])))

/-- Row numbers carried by the task_completed events of a trace. -/
def completedRows (tr : List Event) : List Nat :=
  tr.filterMap (fun e =>
    match e with
    | Event.task_completed rn _ _ _ => some rn
    | _ => none)

/-- Number of task_started events in a trace. -/
def startedCount (tr : List Event) : Nat :=
  tr.countP (fun e =>
    match e with
    | Event.task_started _ _ => true
    | _ => false)

/-- Number of terminal all_completed events in a trace. -/
def finishedCount (tr : List Event) : Nat :=
  tr.countP (fun e =>
    match e with
    | Event.all_completed => true
    | _ => false)

/-- Value of the WorkerResult produced by one execution of _process_task,
as a function of the task's environment alone (the result tuple computed at
thread_pool.py lines 93-106 does not depend on the manager state). -/
def expectedResult (env : TaskEnv) (task : TaskRow) (profile_name : String) :
    WorkerResult :=
  if !(env.navigate_ok && (env.is_logged_in || env.wait_for_login_ok)) then
    WorkerResult.mk task false "Không thể đăng nhập" profile_name
  else
    match env.outcome with
    | Outcome.ok s m => WorkerResult.mk task s m profile_name
    | Outcome.raised e => WorkerResult.mk task false e profile_name

/-- Events emitted by _ensure_logged_in: the login prompt appears exactly
when navigation succeeded and the initial is_logged_in check was negative. -/
def loginEvents (env : TaskEnv) (profile_name : String) : List Event :=
  if env.navigate_ok && !env.is_logged_in then
    [Event.log_message s!"[{profile_name}] Vui lòng đăng nhập...",
     Event.login_required profile_name]
  else []

/-- Input positions that the submission loop routed to slot s. -/
def slotPositions (submitted : List (TaskRow × Nat)) (s : Nat) : List Nat :=
  submitted.enum.filterMap (fun p => if p.2.2 = s then some p.1 else none)

/-- Environment in which every task authenticates and succeeds. -/
def envAllOk : Nat → TaskEnv :=
  fun _ => TaskEnv.mk true true true (Outcome.ok true "ok")

/-- Environment in which navigation works but no login ever succeeds:
is_logged_in is always false and wait_for_login(300) always times out. -/
def envAuthFail : Nat → TaskEnv :=
  fun _ => TaskEnv.mk true false false (Outcome.ok true "ok")

/-- Environment in which the first submitted task finds the slot already
authenticated while the second one does not (its fresh browser needs a
login wait, which then succeeds). -/
def envRecheck : Nat → TaskEnv :=
  fun i => if i = 0 then TaskEnv.mk true true true (Outcome.ok true "ok")
           else TaskEnv.mk true false true (Outcome.ok true "ok")

/-- Environment in which the task at position 1 raises an exception while
processing (after a successful login check), every other task succeeding. -/
def envRaise1 : Nat → TaskEnv :=
  fun i => if i = 1 then TaskEnv.mk true true true (Outcome.raised "boom")
           else TaskEnv.mk true true true (Outcome.ok true "ok")

/-- Environment in which the tasks on slot 0 (even positions at concurrency
2) never authenticate — navigation works, is_logged_in is false and the
login wait times out — while the other tasks find the site logged in and
succeed. -/
def envSlot0Fail : Nat → TaskEnv :=
  fun i => if i % 2 = 0 then TaskEnv.mk true false false (Outcome.ok true "ok")
           else TaskEnv.mk true true true (Outcome.ok true "ok")

/-- Sample single-row task used in concrete runs. -/
def taskRowA : TaskRow := { row_number := 1, prompt := "a" }

/-- Second sample task. -/
def taskRowB : TaskRow := { row_number := 2, prompt := "b" }

end ThreadPoolManager

namespace ExecModel

open ThreadPoolManager

/-
Small-step model of the actual concurrency of process_tasks: the futures
submitted to ThreadPoolExecutor(max_workers) form a FIFO queue served by
max_workers threads (a free thread always picks up the earliest pending
future), as_completed yields futures in the order they finish, and the
collection loop then emits task_completed.  Task index i runs
_process_task(task_i, i % max_workers); its fresh browser is identified
with i.  The body of each task (login handling included — a login wait may
hold a task in flight for up to 300 seconds) is abstracted to its
(success, message) outcome in the configuration; Stop() is never called;
log_message and login_required emissions are elided (no claim settled on
this model concerns them — the projection preserves the relative order of
the remaining events).  Each action groups the consecutive statements one
thread executes without interleaved shared-state access relevant to the
claims, so every run of the model is a possible schedule of the Python
code.
-/

/-- Shared state of an in-flight run: the pending queue, indices of tasks
currently executing on some thread, indices finished but not yet collected
(in completion order), the active_browsers registry, the set of browsers
ever opened / closed, and the emitted events. -/
structure ExecState where
  pending : List Nat
  running : List Nat
  done : List Nat
  active_browsers : List (String × Nat)
  opened : List Nat
  closed : List Nat
  events : List Event
deriving Repr, DecidableEq

/-- Static data of a run: the pool width, the row numbers of the tasks in
input order, and each task's (success, message) outcome. -/
structure ExecConfig where
  max_workers : Nat
  rows : List Nat
  results : Nat → Bool × String

/-- Schedule actions: a free thread dequeues the next pending future and
begins _process_task (emitting task_started, opening and registering a
browser); a running task finishes its body and runs its finally block
(closing whichever browser the registry holds for its profile); the
collection loop collects the earliest finished future (emitting
task_completed); the run ends (cleanup plus all_completed) once everything
is collected. -/
inductive ExecAction where
  | start
  | finish (i : Nat)
  | collect
  | finishPool
deriving Repr, DecidableEq

/-- Profile name assigned to the task at position i. -/
def profileOf (cfg : ExecConfig) (i : Nat) : String :=
  _get_profile_name (i % cfg.max_workers)

/-- Row number of the task at position i. -/
def rowOf (cfg : ExecConfig) (i : Nat) : Nat :=
  cfg.rows.getD i 0

/-- One scheduling step; none when the action is not enabled in s. -/
def stepFn (cfg : ExecConfig) (a : ExecAction) (s : ExecState) :
    Option ExecState :=
  match a with
  | ExecAction.start =>
      match s.pending with
      | [] => none
      | i :: rest =>
          if s.running.length < cfg.max_workers then
            let profile := profileOf cfg i
            some { s with
              pending := rest,
              running := s.running ++ [i],
              opened := s.opened ++ [i],
              active_browsers := dictInsert profile i s.active_browsers,
              events := s.events ++ [Event.task_started (rowOf cfg i) profile] }
          else none
  | ExecAction.finish i =>
      if i ∈ s.running then
        let profile := profileOf cfg i
        let s1 :=
          match dictGet profile s.active_browsers with
          | some b => { s with
              closed := s.closed ++ [b],
              active_browsers := dictErase profile s.active_browsers }
          | none => s
        some { s1 with running := s.running.erase i, done := s.done ++ [i] }
      else none
  | ExecAction.collect =>
      match s.done with
      | [] => none
      | i :: rest =>
          let res := cfg.results i
          some { s with
            done := rest,
            events := s.events ++
              [Event.task_completed (rowOf cfg i) res.1 res.2 (profileOf cfg i)] }
  | ExecAction.finishPool =>
      if s.pending = [] ∧ s.running = [] ∧ s.done = [] then
        some { s with
          closed := s.closed ++ s.active_browsers.map Prod.snd,
          active_browsers := [],
          events := s.events ++ [Event.all_completed] }
      else none

/-- Run a sequence of scheduling actions; none if any action is disabled. -/
def runActions (cfg : ExecConfig) (acts : List ExecAction) (s : ExecState) :
    Option ExecState :=
  match acts with
  | [] => some s
  | a :: rest =>
      match stepFn cfg a s with
      | some s1 => runActions cfg rest s1
      | none => none

/-- State right after all futures were submitted and before any ran. -/
def initExec (n : Nat) : ExecState :=
  { pending := List.range n, running := [], done := [],
    active_browsers := [], opened := [], closed := [], events := [] }

/-- States the run can actually be in under some schedule. -/
def Reachable (cfg : ExecConfig) (s : ExecState) : Prop :=
  ∃ acts, runActions cfg acts (initExec cfg.rows.length) = some s

/-- Concrete run used in the schedules below: three tasks with row numbers
10, 20, 30 and concurrency 2 (positions 0 and 2 share slot 0, hence
profile_1), every task succeeding with message "ok". -/
def cfg3 : ExecConfig :=
  { max_workers := 2, rows := [10, 20, 30], results := fun _ => (true, "ok") }

/-- Schedule in which the task at position 1 finishes before the task at
position 0, freeing a thread that immediately picks up position 2. -/
def overlapSchedule : List ExecAction :=
  [ExecAction.start, ExecAction.start, ExecAction.finish 1, ExecAction.collect,
   ExecAction.start, ExecAction.finish 0, ExecAction.collect]

/-- The overlap schedule carried through to the end of the run. -/
def leakSchedule : List ExecAction :=
  overlapSchedule ++
  [ExecAction.finish 2, ExecAction.collect, ExecAction.finishPool]

/-- Concrete run for the authentication-failure scenario: three tasks with
row numbers 10, 20, 30 at concurrency 2; the tasks on slot 0 (even
positions) spend their 300-second login wait and fail with the code's
login-failure message, while the slot-1 task succeeds quickly. -/
def cfgAuth : ExecConfig :=
  { max_workers := 2, rows := [10, 20, 30],
    results := fun i => if i % 2 = 0 then (false, "Không thể đăng nhập")
                        else (true, "ok") }

end ExecModel

namespace ThreadPoolManager

theorem dictGet_insert (k : String) (v : Nat) (d : List (String × Nat)) :
    dictGet k (dictInsert k v d) = some v := by
  simp [dictGet, dictInsert]

theorem dictErase_insert_nil (k : String) (v : Nat) :
    dictErase k (dictInsert k v []) = [] := by
  simp [dictErase, dictInsert]

theorem _process_task_result (env : TaskEnv) (task : TaskRow) (pidx bid : Nat)
    (st : PoolState) :
    (_process_task env task pidx bid st).1 =
      expectedResult env task (_get_profile_name pidx) := by
  rcases env with ⟨nav, lg, wt, oc⟩
  cases nav <;> cases lg <;> cases wt <;>
    simp [_process_task, _ensure_logged_in, expectedResult]

theorem _process_task_startedCount (env : TaskEnv) (task : TaskRow)
    (pidx bid : Nat) (st : PoolState) :
    startedCount (_process_task env task pidx bid st).2.2 = 1 := by
  rcases env with ⟨nav, lg, wt, oc⟩
  cases nav <;> cases lg <;> cases wt <;>
    simp [_process_task, _ensure_logged_in, startedCount]

theorem _process_task_no_completed (env : TaskEnv) (task : TaskRow)
    (pidx bid : Nat) (st : PoolState) :
    completedRows (_process_task env task pidx bid st).2.2 = [] := by
  rcases env with ⟨nav, lg, wt, oc⟩
  cases nav <;> cases lg <;> cases wt <;>
    simp [_process_task, _ensure_logged_in, completedRows]

theorem _process_task_count_all (env : TaskEnv) (task : TaskRow)
    (pidx bid : Nat) (st : PoolState) :
    finishedCount (_process_task env task pidx bid st).2.2 = 0 := by
  rcases env with ⟨nav, lg, wt, oc⟩
  cases nav <;> cases lg <;> cases wt <;>
    simp [_process_task, _ensure_logged_in, finishedCount]

theorem submitTasks_map_fst (tasks : List TaskRow) (C k : Nat) :
    (submitTasks true tasks C k).map Prod.fst = tasks := by
  induction tasks generalizing k with
  | nil => simp [submitTasks]
  | cons t rest ih => simp [submitTasks, ih]

theorem submitTasks_length (tasks : List TaskRow) (C k : Nat) :
    (submitTasks true tasks C k).length = tasks.length := by
  induction tasks generalizing k with
  | nil => simp [submitTasks]
  | cons t rest ih => simp [submitTasks, ih]

theorem submitTasks_get (tasks : List TaskRow) (C k i : Nat) :
    (submitTasks true tasks C k)[i]? =
      (tasks[i]?).map (fun t => (t, (k + i) % C)) := by
  induction tasks generalizing k i with
  | nil => simp [submitTasks]
  | cons t rest ih =>
      cases i with
      | zero => simp [submitTasks]
      | succ j =>
          have harith : k + 1 + j = k + (j + 1) := by omega
          simp [submitTasks, ih, harith]

theorem runWorkers_results_get (env : Nat → TaskEnv)
    (submitted : List (TaskRow × Nat)) (sidx : Nat) (st : PoolState) (i : Nat) :
    ((runWorkers env submitted sidx st).1)[i]? =
      (submitted[i]?).map
        (fun p => expectedResult (env (sidx + i)) p.1 (_get_profile_name p.2)) := by
  induction submitted generalizing sidx st i with
  | nil => simp [runWorkers]
  | cons hd tl ih =>
      rcases hd with ⟨task, pidx⟩
      cases i with
      | zero => simp [runWorkers, _process_task_result]
      | succ j =>
          have harith : sidx + 1 + j = sidx + (j + 1) := by omega
          simp [runWorkers, ih, harith]

theorem runWorkers_length (env : Nat → TaskEnv)
    (submitted : List (TaskRow × Nat)) (sidx : Nat) (st : PoolState) :
    (runWorkers env submitted sidx st).1.length = submitted.length := by
  induction submitted generalizing sidx st with
  | nil => simp [runWorkers]
  | cons hd tl ih =>
      rcases hd with ⟨task, pidx⟩
      simp [runWorkers, ih]

theorem expectedResult_task (env : TaskEnv) (task : TaskRow) (p : String) :
    (expectedResult env task p).task = task := by
  unfold expectedResult
  split
  · rfl
  · cases env.outcome <;> rfl

theorem startedCount_append (l1 l2 : List Event) :
    startedCount (l1 ++ l2) = startedCount l1 + startedCount l2 := by
  simp [startedCount, List.countP_append]

theorem completedRows_append (l1 l2 : List Event) :
    completedRows (l1 ++ l2) = completedRows l1 ++ completedRows l2 := by
  simp [completedRows, List.filterMap_append]

theorem completedRows_completionEvents (r : WorkerResult) :
    completedRows (completionEvents r) = [r.task.row_number] := by
  simp [completedRows, completionEvents]

theorem collectResults_cons (results : List WorkerResult) (i : Nat)
    (rest : List Nat) :
    collectResults results (i :: rest) =
      (match results[i]? with
       | some r => completionEvents r
       | none => []) ++ collectResults results rest := by
  simp [collectResults]

theorem runWorkers_map_row (env : Nat → TaskEnv)
    (submitted : List (TaskRow × Nat)) (sidx : Nat) (st : PoolState) :
    (runWorkers env submitted sidx st).1.map (fun r => r.task.row_number) =
      submitted.map (fun p => p.1.row_number) := by
  induction submitted generalizing sidx st with
  | nil => simp [runWorkers]
  | cons hd tl ih =>
      rcases hd with ⟨task, pidx⟩
      simp [runWorkers, ih, _process_task_result, expectedResult_task]

theorem runWorkers_startedCount (env : Nat → TaskEnv)
    (submitted : List (TaskRow × Nat)) (sidx : Nat) (st : PoolState) :
    startedCount (runWorkers env submitted sidx st).2.2 = submitted.length := by
  induction submitted generalizing sidx st with
  | nil => simp [runWorkers, startedCount]
  | cons hd tl ih =>
      rcases hd with ⟨task, pidx⟩
      simp only [runWorkers]
      rw [startedCount_append, _process_task_startedCount, ih]
      simp [Nat.add_comm]

theorem runWorkers_no_completed (env : Nat → TaskEnv)
    (submitted : List (TaskRow × Nat)) (sidx : Nat) (st : PoolState) :
    completedRows (runWorkers env submitted sidx st).2.2 = [] := by
  induction submitted generalizing sidx st with
  | nil => simp [runWorkers, completedRows]
  | cons hd tl ih =>
      rcases hd with ⟨task, pidx⟩
      have h1 := _process_task_no_completed (env sidx) task pidx sidx st
      simp [runWorkers, completedRows, List.filterMap_append] at *
      exact ⟨h1, ih _ _⟩

theorem finishedCount_append (l1 l2 : List Event) :
    finishedCount (l1 ++ l2) = finishedCount l1 + finishedCount l2 := by
  simp [finishedCount, List.countP_append]

theorem runWorkers_count_all (env : Nat → TaskEnv)
    (submitted : List (TaskRow × Nat)) (sidx : Nat) (st : PoolState) :
    finishedCount (runWorkers env submitted sidx st).2.2 = 0 := by
  induction submitted generalizing sidx st with
  | nil => simp [runWorkers, finishedCount]
  | cons hd tl ih =>
      rcases hd with ⟨task, pidx⟩
      simp only [runWorkers]
      rw [finishedCount_append, _process_task_count_all, ih]

theorem collectResults_startedCount (results : List WorkerResult)
    (order : List Nat) :
    startedCount (collectResults results order) = 0 := by
  induction order with
  | nil => simp [collectResults, startedCount]
  | cons i rest ih =>
      simp [collectResults, startedCount, List.countP_append] at *
      constructor
      · cases results[i]? <;> simp [completionEvents, startedCount]
      · exact ih

theorem collectResults_count_all (results : List WorkerResult)
    (order : List Nat) :
    finishedCount (collectResults results order) = 0 := by
  induction order with
  | nil => simp [collectResults, finishedCount]
  | cons i rest ih =>
      rw [collectResults_cons, finishedCount_append, ih]
      cases results[i]? <;> simp [completionEvents, finishedCount]

theorem collectResults_completedRows (results : List WorkerResult)
    (order : List Nat) :
    completedRows (collectResults results order) =
      order.filterMap (fun i => (results[i]?).map (fun r => r.task.row_number)) := by
  induction order with
  | nil => simp [collectResults, completedRows]
  | cons i rest ih =>
      rw [collectResults_cons, completedRows_append]
      cases h : results[i]? with
      | none => simpa [completedRows, h] using ih
      | some r => simp [completedRows_completionEvents, h, ih]

theorem filterMap_range_getElem {α β : Type} (l : List α) (g : α → β) :
    (List.range l.length).filterMap (fun i => (l[i]?).map g) = l.map g := by
  induction l with
  | nil => simp
  | cons a t ih =>
      rw [List.length_cons, List.range_succ_eq_map]
      have h : (fun i => ((a :: t)[i]?).map g) ∘ Nat.succ = fun i => (t[i]?).map g := by
        funext i
        simp
      simp only [List.filterMap_cons, List.filterMap_map, h, ih,
        List.getElem?_cons_zero, Option.map_some']
      simp

theorem completedRows_log (s : String) (l : List Event) :
    completedRows (Event.log_message s :: l) = completedRows l := by
  simp [completedRows]

theorem startedCount_log (s : String) (l : List Event) :
    startedCount (Event.log_message s :: l) = startedCount l := by
  simp [startedCount]

theorem finishedCount_log (s : String) (l : List Event) :
    finishedCount (Event.log_message s :: l) = finishedCount l := by
  simp [finishedCount]

theorem process_tasks_results_get (st0 : PoolState) (tasks : List TaskRow)
    (C : Nat) (env : Nat → TaskEnv) (order : List Nat)
    (orchFail : Option (Nat × String)) (i : Nat) :
    ((process_tasks st0 tasks C env order orchFail).2.1)[i]? =
      (tasks[i]?).map (fun t => expectedResult (env i) t (_get_profile_name (i % C))) := by
  simp only [process_tasks]
  rw [runWorkers_results_get, submitTasks_get]
  cases tasks[i]? <;> simp

theorem process_tasks_results_length (st0 : PoolState) (tasks : List TaskRow)
    (C : Nat) (env : Nat → TaskEnv) (order : List Nat)
    (orchFail : Option (Nat × String)) :
    (process_tasks st0 tasks C env order orchFail).2.1.length = tasks.length := by
  simp only [process_tasks]
  rw [runWorkers_length, submitTasks_length]

theorem process_tasks_map_row (st0 : PoolState) (tasks : List TaskRow)
    (C : Nat) (env : Nat → TaskEnv) (order : List Nat)
    (orchFail : Option (Nat × String)) :
    (process_tasks st0 tasks C env order orchFail).2.1.map (fun r => r.task.row_number) =
      tasks.map TaskRow.row_number := by
  simp only [process_tasks]
  rw [runWorkers_map_row]
  have h : (fun p : TaskRow × Nat => p.1.row_number) =
      (TaskRow.row_number ∘ Prod.fst) := rfl
  rw [h, ← List.map_map, submitTasks_map_fst]

theorem process_tasks_completedRows (st0 : PoolState) (tasks : List TaskRow)
    (C : Nat) (env : Nat → TaskEnv) (order : List Nat) :
    completedRows (process_tasks st0 tasks C env order none).2.2 =
      order.filterMap (fun i =>
        (((process_tasks st0 tasks C env order none).2.1)[i]?).map
          (fun r => r.task.row_number)) := by
  conv => lhs; simp only [process_tasks]
  rw [completedRows_log, completedRows_append, runWorkers_no_completed,
    completedRows_append, collectResults_completedRows]
  simp only [process_tasks]
  simp [completedRows]

theorem process_tasks_completedRows_perm (st0 : PoolState) (tasks : List TaskRow)
    (C : Nat) (env : Nat → TaskEnv) (order : List Nat)
    (hord : order.Perm (List.range tasks.length)) :
    (completedRows (process_tasks st0 tasks C env order none).2.2).Perm
      (tasks.map TaskRow.row_number) := by
  rw [process_tasks_completedRows]
  have h2 := hord.filterMap (fun i =>
    (((process_tasks st0 tasks C env order none).2.1)[i]?).map
      (fun r => r.task.row_number))
  refine h2.trans ?_
  rw [← process_tasks_results_length st0 tasks C env order none,
    filterMap_range_getElem, process_tasks_map_row]

theorem process_tasks_startedCount (st0 : PoolState) (tasks : List TaskRow)
    (C : Nat) (env : Nat → TaskEnv) (order : List Nat)
    (orchFail : Option (Nat × String)) :
    startedCount (process_tasks st0 tasks C env order orchFail).2.2 = tasks.length := by
  simp only [process_tasks]
  rw [startedCount_log, startedCount_append, runWorkers_startedCount,
    startedCount_append, submitTasks_length]
  have h2 : startedCount [Event.all_completed] = 0 := by simp [startedCount]
  cases orchFail with
  | none => rw [collectResults_startedCount, h2]; omega
  | some p =>
      rcases p with ⟨k, m⟩
      rw [startedCount_append, collectResults_startedCount]
      simp [startedCount]

theorem process_tasks_finishedCount (st0 : PoolState) (tasks : List TaskRow)
    (C : Nat) (env : Nat → TaskEnv) (order : List Nat)
    (orchFail : Option (Nat × String)) :
    finishedCount (process_tasks st0 tasks C env order orchFail).2.2 = 1 := by
  simp only [process_tasks]
  rw [finishedCount_log, finishedCount_append, runWorkers_count_all,
    finishedCount_append]
  have h2 : finishedCount [Event.all_completed] = 1 := by simp [finishedCount]
  cases orchFail with
  | none => rw [collectResults_count_all, h2]
  | some p =>
      rcases p with ⟨k, m⟩
      rw [finishedCount_append, collectResults_count_all]
      simp [finishedCount]

theorem process_tasks_getLast (st0 : PoolState) (tasks : List TaskRow)
    (C : Nat) (env : Nat → TaskEnv) (order : List Nat)
    (orchFail : Option (Nat × String)) :
    (process_tasks st0 tasks C env order orchFail).2.2.getLast? =
      some Event.all_completed := by
  simp only [process_tasks]
  rw [show ∀ (a : Event) (A B : List Event),
      a :: (A ++ (B ++ [Event.all_completed])) =
        (a :: (A ++ B)) ++ Event.all_completed :: [] from by intro a A B; simp]
  rw [List.getLast?_append_cons]
  rfl

theorem process_tasks_registry_empty (st0 : PoolState) (tasks : List TaskRow)
    (C : Nat) (env : Nat → TaskEnv) (order : List Nat)
    (orchFail : Option (Nat × String)) :
    (process_tasks st0 tasks C env order orchFail).1.active_browsers = [] := by
  simp [process_tasks, _cleanup]

theorem expectedResult_profile (env : TaskEnv) (task : TaskRow) (p : String) :
    (expectedResult env task p).profile_name = p := by
  unfold expectedResult
  split
  · rfl
  · cases env.outcome <;> rfl

theorem mem_collectResults (results : List WorkerResult) (order : List Nat)
    (i : Nat) (r : WorkerResult) (hi : i ∈ order) (hr : results[i]? = some r) :
    Event.task_completed r.task.row_number r.success r.message r.profile_name ∈
      collectResults results order := by
  unfold collectResults
  rw [List.mem_flatMap]
  refine ⟨i, hi, ?_⟩
  rw [hr]
  simp [completionEvents]

theorem mem_trace_of_mem_collect (st0 : PoolState) (tasks : List TaskRow)
    (C : Nat) (env : Nat → TaskEnv) (order : List Nat) (ev : Event)
    (h : ev ∈ collectResults (process_tasks st0 tasks C env order none).2.1 order) :
    ev ∈ (process_tasks st0 tasks C env order none).2.2 := by
  simp only [process_tasks] at h ⊢
  simp only [List.mem_cons, List.mem_append, List.mem_singleton]
  tauto

end ThreadPoolManager

open ThreadPoolManager

/-- C1: for every input task sequence and every concurrency C >= 1, the
task at input position i is submitted with profile slot i mod C (and its
worker result carries the corresponding profile name); in particular for
any 5 tasks at concurrency 2, slot 0 receives the tasks at positions
{0,2,4} and slot 1 those at positions {1,3}. -/
theorem C1_round_robin_assignment (tasks : List TaskRow) (C i : Nat)
    (env : Nat → TaskEnv) (order : List Nat) (orchFail : Option (Nat × String))
    (hC : 1 ≤ C) (hi : i < tasks.length) :
    (submitTasks true tasks C 0)[i]? = some (tasks[i], i % C) ∧
    ((process_tasks initialPool tasks C env order orchFail).2.1[i]?).map
      WorkerResult.profile_name = some (_get_profile_name (i % C)) ∧
    (tasks.length = 5 →
      slotPositions (submitTasks true tasks 2 0) 0 = [0, 2, 4] ∧
      slotPositions (submitTasks true tasks 2 0) 1 = [1, 3]) := by
  refine ⟨?_, ?_, ?_⟩
  · rw [submitTasks_get, List.getElem?_eq_getElem hi]
    simp
  · rw [process_tasks_results_get, List.getElem?_eq_getElem hi]
    simp [expectedResult_profile]
  · intro h5
    rcases tasks with _ | ⟨a, _ | ⟨b, _ | ⟨c, _ | ⟨d, _ | ⟨e, rest⟩⟩⟩⟩⟩ <;>
      simp_all
    have : rest = [] := by
      cases rest
      · rfl
      · simp at h5
    subst this
    constructor <;> rfl

/-- C1 witness: the round-robin theorem applied to five concrete tasks at
concurrency 2 and position 2. -/
theorem C1_round_robin_assignment_witness :
    (submitTasks true [taskRowA, taskRowB, taskRowA, taskRowB, taskRowA] 2 0)[2]? =
      some (([taskRowA, taskRowB, taskRowA, taskRowB, taskRowA])[2], 2 % 2) ∧
    ((process_tasks initialPool [taskRowA, taskRowB, taskRowA, taskRowB, taskRowA]
        2 envAllOk [0, 1, 2, 3, 4] none).2.1[2]?).map WorkerResult.profile_name =
      some (_get_profile_name (2 % 2)) ∧
    ([taskRowA, taskRowB, taskRowA, taskRowB, taskRowA].length = 5 →
      slotPositions (submitTasks true [taskRowA, taskRowB, taskRowA, taskRowB, taskRowA] 2 0) 0 =
        [0, 2, 4] ∧
      slotPositions (submitTasks true [taskRowA, taskRowB, taskRowA, taskRowB, taskRowA] 2 0) 1 =
        [1, 3]) :=
  C1_round_robin_assignment [taskRowA, taskRowB, taskRowA, taskRowB, taskRowA]
    2 2 envAllOk [0, 1, 2, 3, 4] none (by decide) (by decide)

/-- C3 counterexample: calling stop() before process_tasks does not yield
zero task_started events — process_tasks resets is_running to True at entry
(thread_pool.py line 126), so a one-task run after stop() still emits one
task_started (the claim asserts zero). -/
theorem C3_counterexample :
    startedCount ((process_tasks (stop initialPool).1 [taskRowA] 1
      envAllOk [0] none).2.2) = 1 ∧
    ¬ startedCount ((process_tasks (stop initialPool).1 [taskRowA] 1
      envAllOk [0] none).2.2) = 0 ∧
    finishedCount ((process_tasks (stop initialPool).1 [taskRowA] 1
      envAllOk [0] none).2.2) = 1 := by
  refine ⟨?_, ?_, ?_⟩ <;> decide

/-- C3 amended: calling stop() before process_tasks has no suppressing
effect — the run still emits one task_started per input task — while one
terminal all_completed event is emitted, as the last event of the trace. -/
theorem C3_amended_stop_before_run_ineffective (tasks : List TaskRow)
    (C : Nat) (env : Nat → TaskEnv) (order : List Nat)
    (orchFail : Option (Nat × String)) :
    startedCount (process_tasks (stop initialPool).1 tasks C env order
      orchFail).2.2 = tasks.length ∧
    finishedCount (process_tasks (stop initialPool).1 tasks C env order
      orchFail).2.2 = 1 ∧
    (process_tasks (stop initialPool).1 tasks C env order
      orchFail).2.2.getLast? = some Event.all_completed :=
  ⟨process_tasks_startedCount (stop initialPool).1 tasks C env order orchFail,
   process_tasks_finishedCount (stop initialPool).1 tasks C env order orchFail,
   process_tasks_getLast (stop initialPool).1 tasks C env order orchFail⟩

/-- C5: for every task list and concurrency C >= 1, when stop() is never
called a full run emits one task_completed event per input task: the
emitted row numbers are a permutation of the input row numbers, there are
exactly N of them, and (the input rows being distinct) no row number is
completed twice. -/
theorem C5_exactly_one_completion_per_task (tasks : List TaskRow) (C : Nat)
    (env : Nat → TaskEnv) (order : List Nat) (hC : 1 ≤ C)
    (hord : order.Perm (List.range tasks.length))
    (hnd : (tasks.map TaskRow.row_number).Nodup) :
    (completedRows (process_tasks initialPool tasks C env order none).2.2).Perm
      (tasks.map TaskRow.row_number) ∧
    (completedRows (process_tasks initialPool tasks C env order none).2.2).length
      = tasks.length ∧
    (completedRows (process_tasks initialPool tasks C env order none).2.2).Nodup := by
  have hp := process_tasks_completedRows_perm initialPool tasks C env order hord
  refine ⟨hp, ?_, hp.nodup_iff.mpr hnd⟩
  rw [hp.length_eq, List.length_map]

/-- C5 witness: two tasks at concurrency 1, collected in reverse order. -/
theorem C5_exactly_one_completion_per_task_witness :
    (completedRows (process_tasks initialPool [taskRowA, taskRowB] 1 envAllOk
      [1, 0] none).2.2).Perm ([taskRowA, taskRowB].map TaskRow.row_number) ∧
    (completedRows (process_tasks initialPool [taskRowA, taskRowB] 1 envAllOk
      [1, 0] none).2.2).length = [taskRowA, taskRowB].length ∧
    (completedRows (process_tasks initialPool [taskRowA, taskRowB] 1 envAllOk
      [1, 0] none).2.2).Nodup :=
  C5_exactly_one_completion_per_task [taskRowA, taskRowB] 1 envAllOk [1, 0]
    (by decide) (by decide) (by decide)

/-- C8 counterexample: the clause "all open Sessions are released first" is
false of the program — under the reachable same-slot overlap the registry
entry of slot 0 is overwritten, the first task's finally block closes the
wrong browser, and a run that completes (one all_completed, last in the
trace) leaves an opened browser that was never closed; the final cleanup
cannot release it because it is no longer registered. -/
theorem C8_counterexample :
    ∃ s : ExecModel.ExecState,
      ExecModel.Reachable ExecModel.cfg3 s ∧
      finishedCount s.events = 1 ∧
      s.events.getLast? = some Event.all_completed ∧
      ¬ (∀ b, b ∈ s.opened → b ∈ s.closed) := by
  refine ⟨{ pending := [], running := [], done := [],
            active_browsers := [], opened := [0, 1, 2], closed := [1, 2],
            events := [Event.task_started 10 "profile_1",
                       Event.task_started 20 "profile_2",
                       Event.task_completed 20 true "ok" "profile_2",
                       Event.task_started 30 "profile_1",
                       Event.task_completed 10 true "ok" "profile_1",
                       Event.task_completed 30 true "ok" "profile_1",
                       Event.all_completed] },
          ⟨ExecModel.leakSchedule, ?_⟩, ?_, ?_, ?_⟩ <;> decide

/-- C8 amended: every run emits exactly one terminal all_completed event,
as the last event of the trace (hence after all worker emissions), and this
holds also when an unexpected internal error escapes the collection loop
(orchFail); before the terminal event the cleanup runs, leaving the
active-browser registry empty — it closes the browsers still registered,
but (per the counterexample) a browser evicted from the registry by the
same-slot overlap may remain open. -/
theorem C8_single_terminal_pool_finished (tasks : List TaskRow) (C : Nat)
    (env : Nat → TaskEnv) (order : List Nat) (orchFail : Option (Nat × String)) :
    finishedCount (process_tasks initialPool tasks C env order orchFail).2.2 = 1 ∧
    (process_tasks initialPool tasks C env order orchFail).2.2.getLast? =
      some Event.all_completed ∧
    (process_tasks initialPool tasks C env order orchFail).1.active_browsers = [] :=
  ⟨process_tasks_finishedCount initialPool tasks C env order orchFail,
   process_tasks_getLast initialPool tasks C env order orchFail,
   process_tasks_registry_empty initialPool tasks C env order orchFail⟩

/-- C6: an exception raised while processing the task at position i is
caught and converted into a failed WorkerResult for that task only
(success = false, message = the error detail); every other task's result is
still determined by its own environment alone, all N task_completed events
are emitted, and the failed task's own task_completed event appears in the
trace. -/
theorem C6_exception_contained (tasks : List TaskRow) (C : Nat)
    (env : Nat → TaskEnv) (order : List Nat) (i : Nat) (e : String)
    (hC : 1 ≤ C) (hi : i < tasks.length)
    (hord : order.Perm (List.range tasks.length))
    (hout : (env i).outcome = Outcome.raised e)
    (hnav : (env i).navigate_ok = true)
    (hlog : (env i).is_logged_in = true) :
    (process_tasks initialPool tasks C env order none).2.1[i]? =
      some (WorkerResult.mk tasks[i] false e (_get_profile_name (i % C))) ∧
    (∀ j, (hj : j < tasks.length) →
      (process_tasks initialPool tasks C env order none).2.1[j]? =
        some (expectedResult (env j) tasks[j] (_get_profile_name (j % C)))) ∧
    (completedRows (process_tasks initialPool tasks C env order none).2.2).length
      = tasks.length ∧
    Event.task_completed (tasks[i].row_number) false e (_get_profile_name (i % C))
      ∈ (process_tasks initialPool tasks C env order none).2.2 := by
  have hres : (process_tasks initialPool tasks C env order none).2.1[i]? =
      some (WorkerResult.mk tasks[i] false e (_get_profile_name (i % C))) := by
    rw [process_tasks_results_get, List.getElem?_eq_getElem hi]
    simp [expectedResult, hnav, hlog, hout]
  refine ⟨hres, ?_, ?_, ?_⟩
  · intro j hj
    rw [process_tasks_results_get, List.getElem?_eq_getElem hj]
    simp
  · have hp := process_tasks_completedRows_perm initialPool tasks C env order hord
    rw [hp.length_eq, List.length_map]
  · have hmem : i ∈ order := by
      rw [hord.mem_iff, List.mem_range]
      exact hi
    exact mem_trace_of_mem_collect initialPool tasks C env order _
      (mem_collectResults _ order i _ hmem hres)

/-- C6 witness: three tasks at concurrency 2, the middle one raising. -/
theorem C6_exception_contained_witness :
    (process_tasks initialPool [taskRowA, taskRowB, taskRowA] 2 envRaise1
        [0, 1, 2] none).2.1[1]? =
      some (WorkerResult.mk ([taskRowA, taskRowB, taskRowA])[1] false "boom"
        (_get_profile_name (1 % 2))) ∧
    (∀ j, (hj : j < [taskRowA, taskRowB, taskRowA].length) →
      (process_tasks initialPool [taskRowA, taskRowB, taskRowA] 2 envRaise1
          [0, 1, 2] none).2.1[j]? =
        some (expectedResult (envRaise1 j) ([taskRowA, taskRowB, taskRowA])[j]
          (_get_profile_name (j % 2)))) ∧
    (completedRows (process_tasks initialPool [taskRowA, taskRowB, taskRowA] 2
      envRaise1 [0, 1, 2] none).2.2).length = [taskRowA, taskRowB, taskRowA].length ∧
    Event.task_completed (([taskRowA, taskRowB, taskRowA])[1].row_number) false
      "boom" (_get_profile_name (1 % 2))
      ∈ (process_tasks initialPool [taskRowA, taskRowB, taskRowA] 2 envRaise1
          [0, 1, 2] none).2.2 :=
  C6_exception_contained [taskRowA, taskRowB, taskRowA] 2 envRaise1 [0, 1, 2]
    1 "boom" (by decide) (by decide) (by decide) (by decide) (by decide) (by decide)

/-- C7 counterexample, refuting both clauses of the claim on the code.
First: when authentication never succeeds within the login timeout, the
slot's tasks are marked failed with the code's message "Không thể đăng
nhập" (thread_pool.py line 94), which is not the reason "authentication
timed out".  Second, the teardown clause: in this very scenario the
slot-0 tasks sit in their 300-second login waits, so the same-slot overlap
is reachable — the registry entry is overwritten, the first failing task's
finally block closes the other task's browser, and the browser opened for
position 0 is never closed although the run completes; the slot's Session
is not torn down. -/
theorem C7_counterexample :
    (((process_tasks initialPool [taskRowA] 1 envAuthFail [0] none).2.1[0]?).map
      WorkerResult.message = some "Không thể đăng nhập" ∧
     "Không thể đăng nhập" ≠ "authentication timed out") ∧
    ∃ s : ExecModel.ExecState,
      ExecModel.Reachable ExecModel.cfgAuth s ∧
      s.events.getLast? = some Event.all_completed ∧
      Event.task_completed 10 false "Không thể đăng nhập" "profile_1" ∈ s.events ∧
      0 ∈ s.opened ∧ ¬ 0 ∈ s.closed := by
  refine ⟨⟨by decide, by decide⟩,
    ⟨{ pending := [], running := [], done := [],
       active_browsers := [], opened := [0, 1, 2], closed := [1, 2],
       events := [Event.task_started 10 "profile_1",
                  Event.task_started 20 "profile_2",
                  Event.task_completed 20 true "ok" "profile_2",
                  Event.task_started 30 "profile_1",
                  Event.task_completed 10 false "Không thể đăng nhập" "profile_1",
                  Event.task_completed 30 false "Không thể đăng nhập" "profile_1",
                  Event.all_completed] },
     ⟨ExecModel.leakSchedule, ?_⟩, ?_, ?_, ?_, ?_⟩⟩ <;> decide

/-- C7 amended: if, on the tasks routed to slot s, navigation succeeds but
is_logged_in is always false and wait_for_login(300) always times out, then
every one of slot s's tasks is marked failed with the login-failure message
"Không thể đăng nhập" (each task performs its own login wait), tasks on
other slots complete normally, and all N task_completed events are still
emitted.  No session-teardown conclusion is part of the amendment: the
counterexample shows the failing slot's browser can remain open. -/
theorem C7_amended_slot_auth_timeout (tasks : List TaskRow) (C : Nat)
    (env : Nat → TaskEnv) (order : List Nat) (s : Nat)
    (hC : 1 ≤ C) (hord : order.Perm (List.range tasks.length))
    (hbad : ∀ i, i < tasks.length → i % C = s →
        (env i).navigate_ok = true ∧ (env i).is_logged_in = false ∧
        (env i).wait_for_login_ok = false)
    (hgood : ∀ i, i < tasks.length → i % C ≠ s →
        (env i).navigate_ok = true ∧ (env i).is_logged_in = true ∧
        (env i).outcome = Outcome.ok true "ok") :
    (∀ i, (hi : i < tasks.length) → i % C = s →
        (process_tasks initialPool tasks C env order none).2.1[i]? =
          some (WorkerResult.mk tasks[i] false "Không thể đăng nhập"
            (_get_profile_name s))) ∧
    (∀ i, (hi : i < tasks.length) → i % C ≠ s →
        (process_tasks initialPool tasks C env order none).2.1[i]? =
          some (WorkerResult.mk tasks[i] true "ok" (_get_profile_name (i % C)))) ∧
    (completedRows (process_tasks initialPool tasks C env order none).2.2).length
      = tasks.length := by
  refine ⟨?_, ?_, ?_⟩
  · intro i hi hslot
    obtain ⟨h1, h2, h3⟩ := hbad i hi hslot
    rw [process_tasks_results_get, List.getElem?_eq_getElem hi]
    simp [expectedResult, h1, h2, h3, hslot]
  · intro i hi hslot
    obtain ⟨h1, h2, h3⟩ := hgood i hi hslot
    rw [process_tasks_results_get, List.getElem?_eq_getElem hi]
    simp [expectedResult, h1, h2, h3]
  · have hp := process_tasks_completedRows_perm initialPool tasks C env order hord
    rw [hp.length_eq, List.length_map]

/-- C7 amended witness: three tasks at concurrency 2, slot 0 failing to
authenticate while slot 1 completes normally. -/
theorem C7_amended_slot_auth_timeout_witness :
    (∀ i, (hi : i < [taskRowA, taskRowB, taskRowA].length) → i % 2 = 0 →
        (process_tasks initialPool [taskRowA, taskRowB, taskRowA] 2 envSlot0Fail
            [0, 1, 2] none).2.1[i]? =
          some (WorkerResult.mk ([taskRowA, taskRowB, taskRowA])[i] false
            "Không thể đăng nhập" (_get_profile_name 0))) ∧
    (∀ i, (hi : i < [taskRowA, taskRowB, taskRowA].length) → i % 2 ≠ 0 →
        (process_tasks initialPool [taskRowA, taskRowB, taskRowA] 2 envSlot0Fail
            [0, 1, 2] none).2.1[i]? =
          some (WorkerResult.mk ([taskRowA, taskRowB, taskRowA])[i] true "ok"
            (_get_profile_name (i % 2)))) ∧
    (completedRows (process_tasks initialPool [taskRowA, taskRowB, taskRowA] 2
      envSlot0Fail [0, 1, 2] none).2.2).length =
      [taskRowA, taskRowB, taskRowA].length :=
  C7_amended_slot_auth_timeout [taskRowA, taskRowB, taskRowA] 2 envSlot0Fail
    [0, 1, 2] 0 (by decide) (by decide) (by decide) (by decide)

/-- C4: the claim fails on the code — _ensure_logged_in never consults the
_logged_in_profiles set it populates (the set is written at lines 62 and 70
but never read), and _process_task creates a fresh BrowserCore for every
task (line 84).  Concretely: after the first task on slot profile_1
authenticates successfully, the second task on the same slot still performs
the full authentication check, re-enters the login wait (emitting
login_required for profile_1 after its own task_started), and runs on a
second, newly created browser rather than a reused Session. -/
theorem C4_auth_recheck_on_same_slot :
    (process_tasks initialPool [taskRowA, taskRowB] 1 envRecheck
      [0, 1] none).2.1[0]? =
      some (WorkerResult.mk taskRowA true "ok" "profile_1") ∧
    (process_tasks initialPool [taskRowA, taskRowB] 1 envRecheck
      [0, 1] none).2.2[2]? = some (Event.task_started 1 "profile_1") ∧
    (process_tasks initialPool [taskRowA, taskRowB] 1 envRecheck
      [0, 1] none).2.2[4]? = some (Event.task_started 2 "profile_1") ∧
    (process_tasks initialPool [taskRowA, taskRowB] 1 envRecheck
      [0, 1] none).2.2[6]? = some (Event.login_required "profile_1") ∧
    ((process_tasks initialPool [taskRowA, taskRowB] 1 envRecheck
      [0, 1] none).2.2.filter
        (fun ev => ev = Event.login_required "profile_1")).length = 1 ∧
    (process_tasks initialPool [taskRowA, taskRowB] 1 envRecheck
      [0, 1] none).1.openedBrowsers = [0, 1] ∧
    (process_tasks initialPool [taskRowA, taskRowB] 1 envRecheck
      [0, 1] none).1.logged_in_profiles = ["profile_1"] := by
  refine ⟨?_, ?_, ?_, ?_, ?_, ?_, ?_⟩ <;> decide

/-- C2: the claim fails on the code — process_tasks submits every task to
one shared ThreadPoolExecutor, so a thread freed by a short task on another
slot picks up the next pending task even when the same slot's earlier task
is still in flight.  Reachable schedule for 3 tasks (rows 10, 20, 30) at
concurrency 2: position 2 (slot 0, row 30) emits task_started at trace
index 3, before position 0 (slot 0, row 10) emits task_completed at trace
index 4. -/
theorem C2_same_slot_tasks_can_overlap :
    ∃ s : ExecModel.ExecState,
      ExecModel.Reachable ExecModel.cfg3 s ∧
      0 % ExecModel.cfg3.max_workers = 2 % ExecModel.cfg3.max_workers ∧
      s.events[3]? = some (Event.task_started 30 "profile_1") ∧
      s.events[4]? = some (Event.task_completed 10 true "ok" "profile_1") := by
  refine ⟨{ pending := [], running := [2], done := [],
            active_browsers := [], opened := [0, 1, 2], closed := [1, 2],
            events := [Event.task_started 10 "profile_1",
                       Event.task_started 20 "profile_2",
                       Event.task_completed 20 true "ok" "profile_2",
                       Event.task_started 30 "profile_1",
                       Event.task_completed 10 true "ok" "profile_1"] },
          ⟨ExecModel.overlapSchedule, ?_⟩, ?_, ?_, ?_⟩ <;> decide

/-- C9: the claim fails on the code — under the overlap schedule of C2 the
registry entry of slot profile_1 is overwritten by the second task on that
slot, so the first task's finally block closes the wrong browser and the
browser opened for position 0 is never closed: a completed run (terminal
all_completed emitted, registry empty) leaves a browser open. -/
theorem C9_session_can_leak :
    ∃ s : ExecModel.ExecState,
      ExecModel.Reachable ExecModel.cfg3 s ∧
      s.events.getLast? = some Event.all_completed ∧
      s.pending = [] ∧ s.running = [] ∧ s.done = [] ∧
      s.active_browsers = [] ∧
      0 ∈ s.opened ∧ ¬ 0 ∈ s.closed := by
  refine ⟨{ pending := [], running := [], done := [],
            active_browsers := [], opened := [0, 1, 2], closed := [1, 2],
            events := [Event.task_started 10 "profile_1",
                       Event.task_started 20 "profile_2",
                       Event.task_completed 20 true "ok" "profile_2",
                       Event.task_started 30 "profile_1",
                       Event.task_completed 10 true "ok" "profile_1",
                       Event.task_completed 30 true "ok" "profile_1",
                       Event.all_completed] },
          ⟨ExecModel.leakSchedule, ?_⟩, ?_, ?_, ?_, ?_, ?_, ?_, ?_⟩ <;> decide

/-- C10: for every task whose image_path is non-empty,
SoraAutomation.process_task evaluates self.upload_image, an attribute the
class does not define (only upload_images exists), so an AttributeError is
raised and converted by the task-level handler into a failed result before
any prompt entry: the result is (false, AttributeError message) and no
driver interaction is attempted. -/
theorem C10_upload_image_missing (env : SoraAutomation.DriverEnv)
    (task : TaskRow) (h : task.image_path ≠ "") :
    SoraAutomation.process_task env task =
      ((false, SoraAutomation.noAttrMsg "upload_image"), []) ∧
    SoraAutomation.DriverAction.enter_prompt task.prompt ∉
      (SoraAutomation.process_task env task).2 := by
  have hc : ¬ ("upload_image" ∈ SoraAutomation.methodNames) := by decide
  have h1 : SoraAutomation.process_task env task =
      ((false, SoraAutomation.noAttrMsg "upload_image"), []) := by
    simp [SoraAutomation.process_task, h, hc]
  refine ⟨h1, ?_⟩
  rw [h1]
  simp

/-- C10 witness: a concrete task carrying an image path. -/
theorem C10_upload_image_missing_witness :
    SoraAutomation.process_task
        (SoraAutomation.DriverEnv.mk true true true true true "out.mp4")
        { row_number := 3, prompt := "p", image_path := "img.png" } =
      ((false, SoraAutomation.noAttrMsg "upload_image"), []) ∧
    SoraAutomation.DriverAction.enter_prompt "p" ∉
      (SoraAutomation.process_task
        (SoraAutomation.DriverEnv.mk true true true true true "out.mp4")
        { row_number := 3, prompt := "p", image_path := "img.png" }).2 :=
  C10_upload_image_missing
    (SoraAutomation.DriverEnv.mk true true true true true "out.mp4")
    { row_number := 3, prompt := "p", image_path := "img.png" } (by decide)

end NewSora
